import Mathlib

/-!
Verification of the KRMC pharmacy dashboard aggregation pipeline
(src/eda_streamlit.py) against its specification.

The dashboard is a linear pandas pipeline over one transaction table.  We
embed the table as a list of rows, each pandas transformation as a pure
function on lists, and settle the spec claims as theorems.  Machine floats
carrying money and quantities are embedded as rationals; a pandas cell that
holds no finite value (the NaN or inf produced by dividing by zero) is
embedded as the none of an Option.
-/

namespace KRMC

/-- Calendar date at the granularity the dashboard uses after line 53
strips the time component.  Python date semantics (proleptic Gregorian). -/
structure Date where
  year : Nat
  month : Nat
  day : Nat
deriving DecidableEq, Repr

/-- Gregorian leap year, as Python date arithmetic has it. -/
def isLeap (y : Nat) : Bool := (y % 4 == 0 && y % 100 != 0) || y % 400 == 0

/-- Length of a month in the proleptic Gregorian calendar. -/
def daysInMonth (y m : Nat) : Nat :=
  if m = 2 then (if isLeap y then 29 else 28)
  else if m = 4 ∨ m = 6 ∨ m = 9 ∨ m = 11 then 30 else 31

/-- Days of year y that precede month m. -/
def daysBeforeMonth (y m : Nat) : Nat :=
  ((List.range (m - 1)).map (fun k => daysInMonth y (k + 1))).sum

/-- Python date.toordinal: day number with 0001-01-01 as day 1. -/
def toOrdinal (d : Date) : Nat :=
  let p := d.year - 1
  365 * p + p / 4 - p / 100 + p / 400 + daysBeforeMonth d.year d.month + d.day

/-- Python date.weekday: Monday is 0 through Sunday is 6.
(0001-01-01 is a Monday.) -/
def pyWeekday (d : Date) : Nat := (toOrdinal d + 6) % 7

/-- One transaction row (one line item of one script), with the columns the
claims touch.  Monetary amounts and quantities are rationals. -/
structure Row where
  scriptDate : Date
  sctno : Nat
  itemDescription : String
  qty : ℚ
  retail : ℚ
  cost : ℚ
  dispenser : String
  doctor : String
  medicalAid : String
deriving DecidableEq, Repr

/-- Year column derived at line 55 from the script date. -/
def rowYear (r : Row) : Nat := r.scriptDate.year

/-- Year rendered as text, as line 234 casts it for the product module. -/
def yearStr (r : Row) : String := Nat.repr r.scriptDate.year

/-- Script Date Month bucket of a row (lines 280..282): the (year, month)
pair of its script date. -/
def sdMonth (r : Row) : Nat × Nat := (r.scriptDate.year, r.scriptDate.month)

/-- Line 60: the outlier filter that produces the table every downstream
module reads.  df = df[df[Retail] < 65000]. -/
def clean (t : List Row) : List Row := t.filter (fun r => r.retail < 65000)

/-- Line 63: sum of retail over the cleaned rows of year 2023. -/
def total_retail_sales (t : List Row) : ℚ :=
  ((t.filter (fun r => rowYear r = 2023)).map (fun r => r.retail)).sum

/-- First-occurrence deduplication, the semantics of pandas unique and of
groupby key formation.  Realised as reverse of Mathlib dedup of reverse,
which keeps exactly the first occurrence of every value. -/
def pdUnique {α : Type} [DecidableEq α] (l : List α) : List α :=
  l.reverse.dedup.reverse

/-- pandas drop_duplicates over a key column, keeping the first row of every
key (seen accumulates the keys already emitted). -/
def dropDupByAux {α κ : Type} [DecidableEq κ] (key : α → κ) (seen : List κ) :
    List α → List α
  | [] => []
  | x :: xs =>
    if key x ∈ seen then dropDupByAux key seen xs
    else x :: dropDupByAux key (key x :: seen) xs

/-- pandas drop_duplicates(column, keep=first). -/
def dropDuplicatesBy {α κ : Type} [DecidableEq κ] (key : α → κ) (l : List α) :
    List α :=
  dropDupByAux key [] l

/-- Code-point lexicographic order on character lists: how Python (and hence
pandas) compares the strings that end up as sort keys. -/
def charListLt : List Char → List Char → Bool
  | [], [] => false
  | [], _ :: _ => true
  | _ :: _, [] => false
  | a :: as, b :: bs => if a < b then true else if b < a then false else charListLt as bs

/-- Lexicographic strict order on strings by code point. -/
def strLt (a b : String) : Bool := charListLt a.data b.data

/-- The shared rolling primitive (lines 101..103 and 170..172):
series.rolling(window=w).mean() with the pandas default min_periods = w.
Point i of the output is the mean of the w trailing values ending at i, and
carries no value while fewer than w values of history exist. -/
def rolling_mean (w : Nat) (s : List ℚ) : List (Option ℚ) :=
  (List.range s.length).map fun i =>
    if w ≤ i + 1 then some ((((s.drop (i + 1 - w)).take w).sum) / (w : ℚ))
    else none

/-! ## Operational analysis (lines 136..231)

df_disp is the per (day, dispenser) daily script-count table built at lines
138..143; the claims about the operational module quantify over an arbitrary
such table. -/

/-- One row of df_disp: a day, a dispenser and that day's script count. -/
structure DispRow where
  scriptDate : Date
  dispenser : String
  sctno : Nat
deriving DecidableEq, Repr

/-- Lines 205..217: hours open as a function of the date of a row. -/
def calculate_hours_open (d : Date) : Nat :=
  let day_of_week := pyWeekday d
  if day_of_week = 6 then 0
  else if day_of_week = 5 then 4
  else if d.year < 2023 then 9 else 11

/-- df_disp row after the columns added at lines 221..222. -/
structure DispRateRow where
  scriptDate : Date
  dispenser : String
  sctno : Nat
  no_of_hours_open : Nat
  rate_of_scripts : Option ℚ
deriving DecidableEq, Repr

/-- Line 221: the hours-open column, from each row's date. -/
def add_no_of_hours_open (t : List DispRow) : List DispRateRow :=
  t.map fun r =>
    { scriptDate := r.scriptDate, dispenser := r.dispenser, sctno := r.sctno,
      no_of_hours_open := calculate_hours_open r.scriptDate,
      rate_of_scripts := none }

/-- Line 222: the rate column, Sctno divided by hours open, computed on
every row of its input; on a zero-hour row the quotient is not a finite
number (pandas produces inf), embedded as none. -/
def add_rate_of_scripts (t : List DispRateRow) : List DispRateRow :=
  t.map fun r =>
    { r with rate_of_scripts :=
        if r.no_of_hours_open = 0 then none
        else some ((r.sctno : ℚ) / (r.no_of_hours_open : ℚ)) }

/-- Line 223: df_disp = df_disp[df_disp[no_of_hours_open] != 0]. -/
def drop_zero_hours (t : List DispRateRow) : List DispRateRow :=
  t.filter fun r => r.no_of_hours_open ≠ 0

/-- Lines 221..223 in source order: add hours, divide, then drop the
zero-hour rows. -/
def df_disp_rate (t : List DispRow) : List DispRateRow :=
  drop_zero_hours (add_rate_of_scripts (add_no_of_hours_open t))

/-- Modelled from the spec: the order of operations section 7 of the spec
describes, with the zero-hour rows dropped before the division is performed
(drop-before-divide), for comparison with df_disp_rate. -/
def drop_before_divide (t : List DispRow) : List DispRateRow :=
  add_rate_of_scripts (drop_zero_hours (add_no_of_hours_open t))

/-- Line 224: per-dispenser mean of the rate column (groupby mean over the
rows that survived the zero-hour drop); rows whose rate holds no finite
value would be skipped by a pandas mean. -/
def mean_rate_by_dispenser (rows : List DispRateRow) : List (String × ℚ) :=
  (pdUnique (rows.map fun r => r.dispenser)).map fun d =>
    let rs := (rows.filter fun r => r.dispenser = d).filterMap fun r => r.rate_of_scripts
    (d, rs.sum / (rs.length : ℚ))

/-- Lines 221..224 end to end: the published mean scripts-per-hour table. -/
def df_disp_sr_mean (t : List DispRow) : List (String × ℚ) :=
  mean_rate_by_dispenser (df_disp_rate t)

/-- Modelled from the spec: the same aggregate with the drop performed
before the division. -/
def df_disp_sr_mean_drop_first (t : List DispRow) : List (String × ℚ) :=
  mean_rate_by_dispenser (drop_before_divide t)

/-! Gap filling (lines 146..152): unstack, fillna(0), stack builds the dense
(observed day) times (observed dispenser) grid, keeping every observed count
and writing 0 everywhere else. -/

/-- The distinct script dates of a df_disp table. -/
def dates_of (t : List DispRow) : List Date := pdUnique (t.map fun r => r.scriptDate)

/-- The distinct dispensers of a df_disp table. -/
def disps_of (t : List DispRow) : List String := pdUnique (t.map fun r => r.dispenser)

/-- The count the input holds at a (date, dispenser) cell, or 0 when the
cell is absent (the fillna(0) of line 149). -/
def lookup_count (t : List DispRow) (d : Date) (p : String) : Nat :=
  match t.find? (fun r => decide (r.scriptDate = d ∧ r.dispenser = p)) with
  | some r => r.sctno
  | none => 0

/-- Lines 146..152: the gap-filled dense grid df_disp_all_days. -/
def df_disp_all_days (t : List DispRow) : List DispRow :=
  (dates_of t).flatMap fun d =>
    (disps_of t).map fun p => ⟨d, p, lookup_count t d p⟩

/-! ## Product analysis (lines 233..530) -/

/-- The distinct (Item Description, Year) group keys of the cleaned table,
Year as text (line 234). -/
def itemYearKeys (t : List Row) : List (String × String) :=
  pdUnique (t.map fun r => (r.itemDescription, yearStr r))

/-- Lines 235..237: per (item, year) sums of Retail and Cost. -/
structure SalesRow where
  itemDescription : String
  year : String
  retail : ℚ
  cost : ℚ
deriving DecidableEq, Repr

/-- Lines 238..243: per (item, year) row count, the Volume column. -/
structure VolRow where
  itemDescription : String
  year : String
  volume : Nat
deriving DecidableEq, Repr

def df_product_sales (t : List Row) : List SalesRow :=
  (itemYearKeys t).map fun k =>
    let g := t.filter fun r => r.itemDescription = k.1 ∧ yearStr r = k.2
    ⟨k.1, k.2, (g.map fun r => r.retail).sum, (g.map fun r => r.cost).sum⟩

def df_product_volume (t : List Row) : List VolRow :=
  (itemYearKeys t).map fun k =>
    ⟨k.1, k.2, (t.filter fun r => r.itemDescription = k.1 ∧ yearStr r = k.2).length⟩

/-- Lines 244..246: merge of sales and volume on (Item Description, Year). -/
structure SalesVolPerYearRow where
  itemDescription : String
  year : String
  retail : ℚ
  cost : ℚ
  volume : Nat
deriving DecidableEq, Repr

def df_product_sales_volume (t : List Row) : List SalesVolPerYearRow :=
  (df_product_sales t).flatMap fun s =>
    ((df_product_volume t).filter fun v =>
        v.itemDescription = s.itemDescription ∧ v.year = s.year).map fun v =>
      ⟨s.itemDescription, s.year, s.retail, s.cost, v.volume⟩

/-- Lines 248..250: per-item (year excluded) sums.  The source computes this
frame but never uses it afterwards. -/
def df_product_sales_exc_year (t : List Row) : List (String × ℚ × ℚ) :=
  (pdUnique (t.map fun r => r.itemDescription)).map fun i =>
    let g := t.filter fun r => r.itemDescription = i
    (i, (g.map fun r => r.retail).sum, (g.map fun r => r.cost).sum)

/-- Lines 251..256: per-item (year excluded) row count.  Also computed and
then never used by the source. -/
def df_product_volume_exc_year (t : List Row) : List (String × Nat) :=
  (pdUnique (t.map fun r => r.itemDescription)).map fun i =>
    (i, (t.filter fun r => r.itemDescription = i).length)

/-- Lines 257..259 as written: the merge joins the per (item, year) frames
df_product_sales and df_product_volume on Item Description alone, so both
Year columns survive with suffixes and every sales year of an item is paired
with every volume year of that item. -/
structure SalesVolItemRow where
  itemDescription : String
  year_x : String
  retail : ℚ
  cost : ℚ
  year_y : String
  volume : Nat
deriving DecidableEq, Repr

def df_product_sales_volume_exc_year (t : List Row) : List SalesVolItemRow :=
  (df_product_sales t).flatMap fun s =>
    ((df_product_volume t).filter fun v =>
        v.itemDescription = s.itemDescription).map fun v =>
      ⟨s.itemDescription, s.year, s.retail, s.cost, v.year, v.volume⟩

/-- Lines 260..265: sort by the Volume column descending, keep the first row
of every item, take ten, list the item names. -/
def top_10_products (t : List Row) : List String :=
  ((dropDuplicatesBy (fun r => r.itemDescription)
      (List.insertionSort (fun a b : SalesVolItemRow => b.volume ≤ a.volume)
        (df_product_sales_volume_exc_year t))).take 10).map fun r => r.itemDescription

/-- Line 267: the grouped bar chart data, the per (item, year) frame
restricted to the selected ten items. -/
def df_product_sales_volume_top_10 (t : List Row) : List SalesVolPerYearRow :=
  (df_product_sales_volume t).filter fun r => r.itemDescription ∈ top_10_products t

/-- Total line-item volume of an item over the whole cleaned table: the
ranking quantity the spec names for the top-ten selection. -/
def total_volume (t : List Row) (item : String) : Nat :=
  (t.filter fun r => r.itemDescription = item).length

/-! Year-comparison chart of the product module (lines 403..504). -/

/-- Line 334 and friends: the fixed numeric-month to label table. -/
def monthLabel : Nat → String
  | 1 => "Jan" | 2 => "Feb" | 3 => "Mar" | 4 => "Apr" | 5 => "May" | 6 => "Jun"
  | 7 => "Jul" | 8 => "Aug" | 9 => "Sep" | 10 => "Oct" | 11 => "Nov" | 12 => "Dec"
  | _ => ""

/-- Row of df_product_monthly_volume_year before the label replace: the
Month column still numeric (lines 403..413). -/
structure MVolNumRow where
  sdMonth : Nat × Nat
  itemDescription : String
  year : String
  sctno : Nat
  month : Nat
deriving DecidableEq, Repr

/-- Row of df_product_monthly_volume_year after lines 414..431 replace the
Month numbers with three-letter labels. -/
structure MVolRow where
  sdMonth : Nat × Nat
  itemDescription : String
  year : String
  sctno : Nat
  month : String
deriving DecidableEq, Repr

structure MQtyNumRow where
  sdMonth : Nat × Nat
  itemDescription : String
  year : String
  qty : ℚ
  month : Nat
deriving DecidableEq, Repr

structure MQtyRow where
  sdMonth : Nat × Nat
  itemDescription : String
  year : String
  qty : ℚ
  month : String
deriving DecidableEq, Repr

/-- The distinct (Script Date Month, Item Description, Year) keys. -/
def monthItemYearKeys (t : List Row) : List ((Nat × Nat) × String × String) :=
  pdUnique (t.map fun r => (sdMonth r, r.itemDescription, yearStr r))

/-- Ascending order on (Year, numeric Month), the sort key of lines 411..413:
Year is text and compares lexicographically by code point. -/
def yearMonthLe (a b : String × Nat) : Prop :=
  strLt a.1 b.1 = true ∨ (a.1 = b.1 ∧ a.2 ≤ b.2)

instance : DecidableRel yearMonthLe := fun a b => by
  unfold yearMonthLe; infer_instance

/-- Lines 403..413: group count per (Script Date Month, item, Year), numeric
Month from the bucket, sorted ascending by (Year, Month). -/
def df_product_monthly_volume_year_num (t : List Row) : List MVolNumRow :=
  List.insertionSort (fun a b : MVolNumRow => yearMonthLe (a.year, a.month) (b.year, b.month))
    ((monthItemYearKeys t).map fun k =>
      ⟨k.1, k.2.1, k.2.2,
        (t.filter fun r => sdMonth r = k.1 ∧ r.itemDescription = k.2.1 ∧ yearStr r = k.2.2).length,
        k.1.2⟩)

/-- Lines 414..431: the Month column replaced by its three-letter label. -/
def df_product_monthly_volume_year (t : List Row) : List MVolRow :=
  (df_product_monthly_volume_year_num t).map fun x =>
    ⟨x.sdMonth, x.itemDescription, x.year, x.sctno, monthLabel x.month⟩

/-- Lines 433..443: the same for the Qty sums. -/
def df_product_monthly_qty_year_num (t : List Row) : List MQtyNumRow :=
  List.insertionSort (fun a b : MQtyNumRow => yearMonthLe (a.year, a.month) (b.year, b.month))
    ((monthItemYearKeys t).map fun k =>
      ⟨k.1, k.2.1, k.2.2,
        (((t.filter fun r => sdMonth r = k.1 ∧ r.itemDescription = k.2.1 ∧ yearStr r = k.2.2).map
            fun r => r.qty).sum),
        k.1.2⟩)

/-- Lines 444..459: label replace on the Qty frame. -/
def df_product_monthly_qty_year (t : List Row) : List MQtyRow :=
  (df_product_monthly_qty_year_num t).map fun x =>
    ⟨x.sdMonth, x.itemDescription, x.year, x.qty, monthLabel x.month⟩

/-- Lines 466..469: merge of the two frames on all four shared columns. -/
structure MergedYearRow where
  month : String
  itemDescription : String
  sdMonth : Nat × Nat
  year : String
  sctno : Nat
  qty : ℚ
deriving DecidableEq, Repr

def df_product_monthly_volume_quantity_year (t : List Row) : List MergedYearRow :=
  (df_product_monthly_volume_year t).flatMap fun v =>
    ((df_product_monthly_qty_year t).filter fun q =>
        q.month = v.month ∧ q.itemDescription = v.itemDescription ∧
        q.sdMonth = v.sdMonth ∧ q.year = v.year).map fun q =>
      ⟨v.month, v.itemDescription, v.sdMonth, v.year, v.sctno, q.qty⟩

/-- Ascending code-point order on (Month label, Year) pairs: the order a
pandas groupby on those two text columns leaves its keys in. -/
def monthYearLe (a b : String × String) : Prop :=
  strLt a.1 b.1 = true ∨ (a.1 = b.1 ∧ (strLt a.2 b.2 = true ∨ a.2 = b.2))

instance : DecidableRel monthYearLe := fun a b => by
  unfold monthYearLe; infer_instance

/-- One point of the chart frame temp_df of lines 470..478. -/
structure ChartRow where
  month : String
  year : String
  sctno : ℚ
  qty : ℚ
deriving DecidableEq, Repr

/-- Lines 470..478: restrict the merged frame to the selected item, keep
(Month, Sctno, Qty, Year), group by (Month, Year) and take means.  The
groupby leaves its rows ordered by the (Month, Year) key pair ascending,
which on the label column is code-point order, not calendar order. -/
def temp_df_year_chart (t : List Row) (item : String) : List ChartRow :=
  let rows := (df_product_monthly_volume_quantity_year t).filter fun r =>
    r.itemDescription = item
  let keys := List.insertionSort monthYearLe (pdUnique (rows.map fun r => (r.month, r.year)))
  keys.map fun k =>
    let g := rows.filter fun r => r.month = k.1 ∧ r.year = k.2
    ⟨k.1, k.2, ((g.map fun r => (r.sctno : ℚ)).sum) / (g.length : ℚ),
      ((g.map fun r => r.qty).sum) / (g.length : ℚ)⟩

/-- Lines 480..499: for one selected year, the x-axis point sequence (month
labels) shared by that year's volume trace and quantity trace. -/
def year_series_x (t : List Row) (item y : String) : List String :=
  ((temp_df_year_chart t item).filter fun r => r.year = y).map fun r => r.month

/-! Per-payer top five (lines 506..530). -/

/-- Row of df_product_medical_aid: a payer, an item, and the count of line
items (lines 506..508 count rows, with no deduplication of script ids). -/
structure AidItemRow where
  medicalAid : String
  itemDescription : String
  sctno : Nat
deriving DecidableEq, Repr

/-- The row count of a (payer, item) cell in the cleaned table. -/
def rowCountFor (t : List Row) (aid item : String) : Nat :=
  (t.filter fun r => r.medicalAid = aid ∧ r.itemDescription = item).length

def df_product_medical_aid (t : List Row) : List AidItemRow :=
  (pdUnique (t.map fun r => (r.medicalAid, r.itemDescription))).map fun k =>
    ⟨k.1, k.2, rowCountFor t k.1 k.2⟩

/-- Line 516: the payer-restricted frame. -/
def temp_df_aid (t : List Row) (aid : String) : List AidItemRow :=
  (df_product_medical_aid t).filter fun r => r.medicalAid = aid

/-- Lines 517..519: group the payer frame by item and sum its Sctno column
(each group holds one precounted row, so the sum is that row count). -/
def aid_item_counts (t : List Row) (aid : String) : List (String × Nat) :=
  (pdUnique ((temp_df_aid t aid).map fun r => r.itemDescription)).map fun i =>
    (i, (((temp_df_aid t aid).filter fun r => r.itemDescription = i).map
      fun r => r.sctno).sum)

/-- Lines 517..523: the grouped sums sorted descending, first five kept. -/
def temp_top_5_products (t : List Row) (aid : String) : List (String × Nat) :=
  (List.insertionSort (fun a b : String × Nat => b.2 ≤ a.2) (aid_item_counts t aid)).take 5

/-- Script volume of a (payer, item) cell: the number of distinct script
identifiers among its rows, the quantity the spec says the chart ranks by. -/
def count_distinct_scripts (t : List Row) (aid item : String) : Nat :=
  (pdUnique ((t.filter fun r => r.medicalAid = aid ∧ r.itemDescription = item).map
    fun r => r.sctno)).length

/-! ## Doctor analysis (lines 533..617) -/

/-- Line 536: the fixed in-house roster. -/
def krmc_doctors : List String :=
  ["FERNANDES", "CHEUNG", "WISE", "BOSMAN", "OLIVIER", "SMITH", "ASMAL"]

/-- Python list.remove: drops the first occurrence, raises ValueError (none)
when the value is absent. -/
def listRemove (l : List String) (x : String) : Option (List String) :=
  if x ∈ l then some (l.erase x) else none

/-- Lines 615..616: the unique non-roster doctor names, with the in-house
dispensary pseudo-prescriber removed unconditionally; none embeds the
ValueError raised when that value is absent. -/
def external_doctors (t : List Row) : Option (List String) :=
  listRemove (pdUnique ((t.filter fun r => r.doctor ∉ krmc_doctors).map fun r => r.doctor))
    "KRMC DISPENSARY"

/-! ## Concrete example tables used by the closed theorems below -/

/-- A transaction row with the fields the examples vary; quantity 1, retail
10, cost 5, dispenser D, doctor DOC. -/
def mkRow (item : String) (y m d n : Nat) (aid : String) : Row :=
  ⟨⟨y, m, d⟩, n, item, 1, 10, 5, "D", "DOC", aid⟩

/-- Eleven products: item A has one line item in each of 2020, 2021 and 2022
(total volume 3, largest single-year volume 1); items P1 .. P10 each have two
line items, both in 2020 (total volume 2, largest single-year volume 2). -/
def ex1 : List Row :=
  [mkRow "A" 2020 1 1 1 "M", mkRow "A" 2021 1 1 2 "M", mkRow "A" 2022 1 1 3 "M",
   mkRow "P1" 2020 1 1 4 "M", mkRow "P1" 2020 1 2 5 "M",
   mkRow "P2" 2020 1 1 6 "M", mkRow "P2" 2020 1 2 7 "M",
   mkRow "P3" 2020 1 1 8 "M", mkRow "P3" 2020 1 2 9 "M",
   mkRow "P4" 2020 1 1 10 "M", mkRow "P4" 2020 1 2 11 "M",
   mkRow "P5" 2020 1 1 12 "M", mkRow "P5" 2020 1 2 13 "M",
   mkRow "P6" 2020 1 1 14 "M", mkRow "P6" 2020 1 2 15 "M",
   mkRow "P7" 2020 1 1 16 "M", mkRow "P7" 2020 1 2 17 "M",
   mkRow "P8" 2020 1 1 18 "M", mkRow "P8" 2020 1 2 19 "M",
   mkRow "P9" 2020 1 1 20 "M", mkRow "P9" 2020 1 2 21 "M",
   mkRow "P10" 2020 1 1 22 "M", mkRow "P10" 2020 1 2 23 "M"]

/-- One product X with one line item in January 2022 and one in February
2022: the months of its single selected year, in calendar order. -/
def ex3 : List Row := [mkRow "X" 2022 1 15 1 "M", mkRow "X" 2022 2 15 2 "M"]

/-- One payer M: product P has three line items that all belong to the same
script (number 1), product Q has two line items from two distinct scripts
(numbers 2 and 3).  Q has more distinct scripts, P has more rows. -/
def ex4 : List Row :=
  [mkRow "P" 2022 1 1 1 "M", mkRow "P" 2022 1 1 1 "M", mkRow "P" 2022 1 1 1 "M",
   mkRow "Q" 2022 1 1 2 "M", mkRow "Q" 2022 1 1 3 "M"]

/-- A daily-count row dated Sunday 2022-06-05. -/
def sundayDispRow : DispRow := ⟨⟨2022, 6, 5⟩, "D", 10⟩

/-- A two-day, two-dispenser daily-count table with one observed cell per
day, so the dense grid has two fills. -/
def exGrid : List DispRow := [⟨⟨2022, 1, 1⟩, "A", 5⟩, ⟨⟨2022, 1, 2⟩, "B", 7⟩]

/-! ## Helper lemmas -/

theorem mem_pdUnique {α : Type} [DecidableEq α] (l : List α) (a : α) :
    a ∈ pdUnique l ↔ a ∈ l := by
  simp [pdUnique]

theorem nodup_pdUnique {α : Type} [DecidableEq α] (l : List α) :
    (pdUnique l).Nodup := by
  rw [pdUnique]
  exact List.nodup_reverse.mpr (List.nodup_dedup _)

/-- The rate pipeline drops the zero-hour rows just after the division step
rather than just before it; the two orders build the same table. -/
theorem df_disp_rate_eq_drop_before_divide (t : List DispRow) :
    df_disp_rate t = drop_before_divide t := by
  unfold df_disp_rate drop_before_divide drop_zero_hours add_rate_of_scripts
  rw [List.filter_map]
  rfl

/-- Every row of the filtered rate table carries the hours its own date
yields, and they are not zero. -/
theorem mem_df_disp_rate (t : List DispRow) (r : DispRateRow)
    (h : r ∈ df_disp_rate t) :
    r.no_of_hours_open = calculate_hours_open r.scriptDate ∧
    r.no_of_hours_open ≠ 0 ∧
    r.rate_of_scripts = some ((r.sctno : ℚ) / (r.no_of_hours_open : ℚ)) := by
  unfold df_disp_rate drop_zero_hours add_rate_of_scripts add_no_of_hours_open at h
  rw [List.map_map] at h
  obtain ⟨hmem, hpred⟩ := List.mem_filter.mp h
  rw [List.mem_map] at hmem
  obtain ⟨x, -, hx⟩ := hmem
  subst hx
  have hne : calculate_hours_open x.scriptDate ≠ 0 := by simpa using hpred
  exact ⟨rfl, by simpa using hne, by simp [hne]⟩

/-- A full trailing window of a series, written by absolute index: taking w
elements after dropping a is the same as reading positions a .. a+w-1. -/
theorem window_eq_map_range (s : List ℚ) (a w : Nat) (h : a + w ≤ s.length) :
    (s.drop a).take w = (List.range w).map fun j => s.getD (a + j) 0 := by
  apply List.ext_getElem
  · simp only [List.length_take, List.length_drop, List.length_map, List.length_range]
    omega
  · intro n h1 h2
    have hn : n < w := by
      simpa using h2
    have han : a + n < s.length := by omega
    rw [List.getElem_take, List.getElem_drop, List.getElem_map, List.getElem_range,
      List.getD_eq_getElem s 0 han]

/-! ## Claim theorems -/

/-- C2 counterexample: on a table holding one Sunday row, the division step
of line 222 still sees the zero-hour row (its input carries hours 0) and
assigns it a non-finite rate; the zero-hour drop of line 223 only runs
afterwards.  So the claim that zero-hour rows are dropped from the table
before the division is performed is false of the code. -/
theorem rate_divides_before_drop :
    ((add_no_of_hours_open [sundayDispRow]).map fun r => r.no_of_hours_open) = [0] ∧
    ((add_rate_of_scripts (add_no_of_hours_open [sundayDispRow])).map
      fun r => r.rate_of_scripts) = [none] ∧
    df_disp_rate [sundayDispRow] = [] := by
  exact ⟨by decide, by decide, by decide⟩

/-- C2 amended: the zero-hour (Sunday) rows are dropped right after the
division rather than before it: line 222 computes the rate column over all
rows, a zero-hour row receiving no finite value, and line 223 then removes
every zero-hour row, so each row reaching the rate aggregate has nonzero
hours and a rate that is a genuine quotient. -/
theorem df_disp_rate_drop_after_divide (t : List DispRow) :
    (∀ r ∈ df_disp_rate t, r.no_of_hours_open ≠ 0 ∧
      r.rate_of_scripts = some ((r.sctno : ℚ) / (r.no_of_hours_open : ℚ))) ∧
    (∀ r ∈ add_rate_of_scripts (add_no_of_hours_open t),
      r.no_of_hours_open = 0 → r.rate_of_scripts = none ∧ r ∉ df_disp_rate t) := by
  constructor
  · intro r hr
    obtain ⟨-, h2, h3⟩ := mem_df_disp_rate t r hr
    exact ⟨h2, h3⟩
  · intro r hr h0
    constructor
    · unfold add_rate_of_scripts add_no_of_hours_open at hr
      rw [List.map_map, List.mem_map] at hr
      obtain ⟨x, -, hx⟩ := hr
      subst hx
      have h0x : calculate_hours_open x.scriptDate = 0 := by simpa using h0
      simp [h0x]
    · intro hmem
      exact (mem_df_disp_rate t r hmem).2.1 h0

/-- C5: the rolling mean primitive keeps the length of its input series,
leaves the first w-1 points with no value, fills point i (for i+1 at least
w) with the arithmetic mean of the w trailing values at positions i-w+1
through i (no look-ahead, no partial windows), and on a window longer than
the series yields only no-value points, never an error. -/
theorem rolling_mean_spec (w : Nat) (s : List ℚ) :
    (rolling_mean w s).length = s.length ∧
    (∀ i : Nat, i < s.length → i + 1 < w → (rolling_mean w s)[i]? = some none) ∧
    (∀ i : Nat, i < s.length → w ≤ i + 1 →
      (rolling_mean w s)[i]? =
        some (some ((((List.range w).map fun j => s.getD (i + 1 - w + j) 0).sum) / (w : ℚ)))) ∧
    (s.length < w → ∀ o ∈ rolling_mean w s, o = none) := by
  refine ⟨by simp [rolling_mean], ?_, ?_, ?_⟩
  · intro i hi hw
    unfold rolling_mean
    rw [List.getElem?_map, List.getElem?_range hi]
    simp only [Option.map_some']
    rw [if_neg (by omega)]
  · intro i hi hw
    unfold rolling_mean
    rw [List.getElem?_map, List.getElem?_range hi]
    simp only [Option.map_some']
    rw [if_pos hw, window_eq_map_range s (i + 1 - w) w (by omega)]
  · intro hlen o ho
    unfold rolling_mean at ho
    rw [List.mem_map] at ho
    obtain ⟨i, hi, rfl⟩ := ho
    rw [List.mem_range] at hi
    rw [if_neg (by omega)]

/-- C6: the line 60 filter leaves only rows with retail strictly below
65000; a retail 70000 row is dropped for good (in particular it moves no
downstream aggregate, shown here for the 2023 retail total), while a retail
64999.99 row is kept. -/
theorem clean_retail_invariant (t : List Row) :
    (∀ r ∈ clean t, r.retail < 65000) ∧
    (∀ r : Row, r.retail = 70000 → r ∉ clean t) ∧
    (∀ r ∈ t, r.retail = (6499999 : ℚ) / 100 → r ∈ clean t) ∧
    (∀ r : Row, r.retail = 70000 →
      total_retail_sales (clean (r :: t)) = total_retail_sales (clean t)) := by
  refine ⟨?_, ?_, ?_, ?_⟩
  · intro r hr
    have h := (List.mem_filter.mp hr).2
    simpa using h
  · intro r h hr
    have h2 := (List.mem_filter.mp hr).2
    rw [h] at h2
    norm_num at h2
  · intro r hr h
    refine List.mem_filter.mpr ⟨hr, ?_⟩
    rw [h]
    norm_num
  · intro r h
    have hno : ¬ (r.retail < 65000) := by rw [h]; norm_num
    have : clean (r :: t) = clean t := by
      unfold clean
      rw [List.filter_cons, if_neg (by simpa using hno)]
    rw [this]

/-- C7: hours open is a function of the date alone: Sunday gives 0 and such
a row never reaches the rate output, Saturday gives 4 in every year, and a
weekday gives 9 before 2023 and 11 from 2023 on. -/
theorem calculate_hours_open_spec (d : Date) (t : List DispRow) :
    (pyWeekday d = 6 → calculate_hours_open d = 0) ∧
    (pyWeekday d = 5 → calculate_hours_open d = 4) ∧
    (pyWeekday d ≤ 4 → d.year < 2023 → calculate_hours_open d = 9) ∧
    (pyWeekday d ≤ 4 → 2023 ≤ d.year → calculate_hours_open d = 11) ∧
    (∀ r ∈ df_disp_rate t, pyWeekday r.scriptDate ≠ 6) := by
  refine ⟨?_, ?_, ?_, ?_, ?_⟩
  · intro h
    simp [calculate_hours_open, h]
  · intro h
    simp [calculate_hours_open, h]
  · intro h hy
    unfold calculate_hours_open
    rw [if_neg (by omega), if_neg (by omega), if_pos hy]
  · intro h hy
    unfold calculate_hours_open
    rw [if_neg (by omega), if_neg (by omega), if_neg (by omega)]
  · intro r hr hsun
    obtain ⟨heq, hne, -⟩ := mem_df_disp_rate t r hr
    apply hne
    rw [heq]
    simp [calculate_hours_open, hsun]

/-- C9: building the external-prescriber list raises (the embedded
ValueError, none) exactly when no row of the cleaned table names the
KRMC DISPENSARY pseudo-prescriber, because line 616 removes that value from
the non-roster name list unconditionally. -/
theorem external_doctors_raises_iff (t : List Row) :
    external_doctors t = none ↔ ¬ ∃ r ∈ t, r.doctor = "KRMC DISPENSARY" := by
  have hmem : "KRMC DISPENSARY" ∈
      pdUnique ((t.filter fun r => r.doctor ∉ krmc_doctors).map fun r => r.doctor) ↔
      ∃ r ∈ t, r.doctor = "KRMC DISPENSARY" := by
    rw [mem_pdUnique, List.mem_map]
    constructor
    · rintro ⟨r, hr, hd⟩
      exact ⟨r, (List.mem_filter.mp hr).1, hd⟩
    · rintro ⟨r, hr, hd⟩
      refine ⟨r, List.mem_filter.mpr ⟨hr, ?_⟩, hd⟩
      rw [hd]
      decide
  unfold external_doctors listRemove
  split
  · next h =>
    exact iff_of_false (by simp) (by simpa using hmem.mp h)
  · next h =>
    exact iff_of_true rfl (fun hex => h (hmem.mpr hex))

/-- C10: the published per-dispenser mean scripts-per-hour is the same
whether the zero-hour rows are dropped before the division or the division
runs on all rows with the zero-hour rows dropped before the mean: the two
orders build identical tables, hence identical aggregates. -/
theorem mean_rate_order_equivalence (t : List DispRow) :
    df_disp_sr_mean t = df_disp_sr_mean_drop_first t := by
  unfold df_disp_sr_mean df_disp_sr_mean_drop_first
  rw [df_disp_rate_eq_drop_before_divide]

/-- When the (date, dispenser) keys of a table are pairwise distinct,
searching for the keys of one of its rows finds exactly that row. -/
theorem find?_keys_of_nodup (t : List DispRow)
    (hkeys : (t.map fun r => (r.scriptDate, r.dispenser)).Nodup)
    (r : DispRow) (hr : r ∈ t) :
    t.find? (fun x => decide (x.scriptDate = r.scriptDate ∧ x.dispenser = r.dispenser)) =
      some r := by
  induction t with
  | nil => cases hr
  | cons a t ih =>
    rw [List.map_cons, List.nodup_cons] at hkeys
    by_cases ha : a.scriptDate = r.scriptDate ∧ a.dispenser = r.dispenser
    · rw [List.find?_cons_of_pos _ (by simpa using ha)]
      rcases List.mem_cons.mp hr with h | h
      · rw [h]
      · exact absurd (List.mem_map.mpr ⟨r, h, by rw [ha.1, ha.2]⟩) hkeys.1
    · rw [List.find?_cons_of_neg _ (by simpa using ha)]
      rcases List.mem_cons.mp hr with h | h
      · exact absurd (by rw [h]; exact ⟨rfl, rfl⟩) ha
      · exact ih hkeys.2 h

/-- Membership in the gap-filled grid, characterised. -/
theorem mem_df_disp_all_days (t : List DispRow) (x : DispRow) :
    x ∈ df_disp_all_days t ↔
      x.scriptDate ∈ dates_of t ∧ x.dispenser ∈ disps_of t ∧
      x.sctno = lookup_count t x.scriptDate x.dispenser := by
  unfold df_disp_all_days
  rw [List.mem_flatMap]
  constructor
  · rintro ⟨d, hd, hx⟩
    rw [List.mem_map] at hx
    obtain ⟨p, hp, rfl⟩ := hx
    exact ⟨hd, hp, rfl⟩
  · rintro ⟨hd, hp, hc⟩
    refine ⟨x.scriptDate, hd, List.mem_map.mpr ⟨x.dispenser, hp, ?_⟩⟩
    cases x with
    | mk a b c =>
      simp only at hc ⊢
      rw [hc]

/-- The grid has one row per (observed date, observed dispenser) pair. -/
theorem length_df_disp_all_days (t : List DispRow) :
    (df_disp_all_days t).length = (dates_of t).length * (disps_of t).length := by
  unfold df_disp_all_days
  generalize dates_of t = ds
  induction ds with
  | nil => simp
  | cons d ds ih =>
    rw [List.flatMap_cons, List.length_append, List.length_map, ih, List.length_cons,
      Nat.succ_mul, Nat.add_comm]

/-- C8: the gap-filled per-dispenser grid has exactly (observed dates) times
(observed dispensers) rows, keeps every observed count unchanged at its
(date, dispenser) cell, and writes 0 at every other cell of the grid. -/
theorem df_disp_all_days_grid_spec (t : List DispRow)
    (hkeys : (t.map fun r => (r.scriptDate, r.dispenser)).Nodup) :
    (df_disp_all_days t).length = (dates_of t).length * (disps_of t).length ∧
    (∀ r ∈ t, (⟨r.scriptDate, r.dispenser, r.sctno⟩ : DispRow) ∈ df_disp_all_days t) ∧
    (∀ x ∈ df_disp_all_days t,
      (∀ r ∈ t, ¬(r.scriptDate = x.scriptDate ∧ r.dispenser = x.dispenser)) →
      x.sctno = 0) ∧
    (∀ d ∈ dates_of t, ∀ p ∈ disps_of t,
      ∃ x ∈ df_disp_all_days t, x.scriptDate = d ∧ x.dispenser = p) := by
  refine ⟨length_df_disp_all_days t, ?_, ?_, ?_⟩
  · intro r hr
    rw [mem_df_disp_all_days]
    refine ⟨?_, ?_, ?_⟩
    · rw [dates_of, mem_pdUnique, List.mem_map]
      exact ⟨r, hr, rfl⟩
    · rw [disps_of, mem_pdUnique, List.mem_map]
      exact ⟨r, hr, rfl⟩
    · simp only [lookup_count, find?_keys_of_nodup t hkeys r hr]
  · intro x hx habs
    obtain ⟨-, -, hc⟩ := (mem_df_disp_all_days t x).mp hx
    have hnone : t.find?
        (fun r => decide (r.scriptDate = x.scriptDate ∧ r.dispenser = x.dispenser)) = none :=
      List.find?_eq_none.mpr fun r hr => by simpa using habs r hr
    rw [hc]
    simp only [lookup_count, hnone]
  · intro d hd p hp
    refine ⟨⟨d, p, lookup_count t d p⟩, ?_, rfl, rfl⟩
    rw [mem_df_disp_all_days]
    exact ⟨hd, hp, rfl⟩

/-- C8 witness: the grid of the concrete two-day, two-dispenser table has
exactly two times two rows. -/
theorem df_disp_all_days_grid_spec_witness :
    (df_disp_all_days exGrid).length = (dates_of exGrid).length * (disps_of exGrid).length :=
  (df_disp_all_days_grid_spec exGrid (by decide)).1

/-- Filtering a duplicate-free list for one of its members keeps exactly
that member. -/
theorem filter_eq_singleton {α : Type} [DecidableEq α] (l : List α) (a : α)
    (hn : l.Nodup) (ha : a ∈ l) : l.filter (fun x => x = a) = [a] := by
  rw [List.filter_eq l a, List.count_eq_one_of_mem hn ha, List.replicate_one]

/-- The payer-restricted frame, written over the filtered key list. -/
theorem temp_df_aid_eq (t : List Row) (aid : String) :
    temp_df_aid t aid =
      ((pdUnique (t.map fun r => (r.medicalAid, r.itemDescription))).filter
        (fun k => k.1 = aid)).map fun k =>
          (⟨k.1, k.2, rowCountFor t k.1 k.2⟩ : AidItemRow) := by
  unfold temp_df_aid df_product_medical_aid
  rw [List.filter_map]
  rfl

/-- Restricting the payer frame to one of its items leaves exactly the one
precounted row of that (payer, item) cell. -/
theorem temp_filter_item (t : List Row) (aid i : String)
    (hi : i ∈ pdUnique ((temp_df_aid t aid).map fun r => r.itemDescription)) :
    (temp_df_aid t aid).filter (fun r => r.itemDescription = i) =
      [⟨aid, i, rowCountFor t aid i⟩] := by
  rw [mem_pdUnique, List.mem_map] at hi
  obtain ⟨x, hx, rfl⟩ := hi
  rw [temp_df_aid_eq] at hx ⊢
  rw [List.mem_map] at hx
  obtain ⟨k, hk, hkx⟩ := hx
  obtain ⟨hkK, hkaid⟩ := List.mem_filter.mp hk
  have hk1 : k.1 = aid := by simpa using hkaid
  have hk2 : x.itemDescription = k.2 := by rw [← hkx]
  rw [hk2, List.filter_map, List.filter_filter]
  have hcongr :
      (pdUnique (t.map fun r => (r.medicalAid, r.itemDescription))).filter
        (fun j =>
          ((fun r : AidItemRow => decide (r.itemDescription = k.2)) ∘ fun j =>
            (⟨j.1, j.2, rowCountFor t j.1 j.2⟩ : AidItemRow)) j && decide (j.1 = aid)) =
      (pdUnique (t.map fun r => (r.medicalAid, r.itemDescription))).filter
        (fun j => j = (aid, k.2)) := by
    apply List.filter_congr
    intro j hj
    show (decide (j.2 = k.2) && decide (j.1 = aid)) = decide (j = (aid, k.2))
    by_cases h1 : j.1 = aid <;> by_cases h2 : j.2 = k.2 <;>
      simp [h1, h2, Prod.ext_iff]
  rw [hcongr, filter_eq_singleton _ _ (nodup_pdUnique _) (by rw [← hk1]; exact hkK),
    List.map_cons, List.map_nil]

/-- Every entry of the per-item grouped sums holds the plain row count of
its (payer, item) cell. -/
theorem aid_item_counts_spec (t : List Row) (aid : String) :
    ∀ p ∈ aid_item_counts t aid, p.2 = rowCountFor t aid p.1 := by
  intro p hp
  unfold aid_item_counts at hp
  rw [List.mem_map] at hp
  obtain ⟨i, hi, rfl⟩ := hp
  simp only
  rw [temp_filter_item t aid i hi]
  simp

/-- Every item that occurs for the payer appears among the grouped sums,
with its row count. -/
theorem aid_item_counts_complete (t : List Row) (aid i : String)
    (h : ∃ r ∈ t, r.medicalAid = aid ∧ r.itemDescription = i) :
    (i, rowCountFor t aid i) ∈ aid_item_counts t aid := by
  obtain ⟨r, hr, h1, h2⟩ := h
  have hK : (aid, i) ∈ pdUnique (t.map fun s => (s.medicalAid, s.itemDescription)) := by
    rw [mem_pdUnique, List.mem_map]
    exact ⟨r, hr, by rw [h1, h2]⟩
  have hx : (⟨aid, i, rowCountFor t aid i⟩ : AidItemRow) ∈ temp_df_aid t aid := by
    rw [temp_df_aid_eq, List.mem_map]
    exact ⟨(aid, i), List.mem_filter.mpr ⟨hK, by simp⟩, rfl⟩
  have hi : i ∈ pdUnique ((temp_df_aid t aid).map fun s => s.itemDescription) := by
    rw [mem_pdUnique, List.mem_map]
    exact ⟨_, hx, rfl⟩
  have hmem : (i,
      (((temp_df_aid t aid).filter fun s => s.itemDescription = i).map
        fun s => s.sctno).sum) ∈ aid_item_counts t aid := by
    unfold aid_item_counts
    rw [List.mem_map]
    exact ⟨i, hi, rfl⟩
  rw [temp_filter_item t aid i hi] at hmem
  simpa using hmem

/-- C4 counterexample: for payer M the chart ranks product P (three line
items, all from the one script number 1) above product Q (two line items
from the two distinct scripts 2 and 3).  Ranking by distinct script
identifiers would place Q first, so the chart does not rank by script
volume but by raw row count. -/
theorem top5_payer_rowcount_not_distinct :
    temp_top_5_products ex4 "M" = [("P", 3), ("Q", 2)] ∧
    count_distinct_scripts ex4 "M" "P" = 1 ∧
    count_distinct_scripts ex4 "M" "Q" = 2 := by
  exact ⟨by decide, by decide, by decide⟩

/-- C4 amended: for every payer, the top-five chart ranks products by raw
line-item row count (no deduplication of script identifiers): its at most
five entries carry exactly the row counts of their (payer, item) cells,
descending, and no item of the payer outside the list has a row count
above any listed entry. -/
theorem temp_top_5_products_ranks_by_rowcount (t : List Row) (aid : String) :
    (temp_top_5_products t aid).length ≤ 5 ∧
    List.Sorted (fun a b : String × Nat => b.2 ≤ a.2) (temp_top_5_products t aid) ∧
    (∀ p ∈ temp_top_5_products t aid, p.2 = rowCountFor t aid p.1) ∧
    (∀ i : String, (∃ r ∈ t, r.medicalAid = aid ∧ r.itemDescription = i) →
      i ∉ (temp_top_5_products t aid).map Prod.fst →
      ∀ p ∈ temp_top_5_products t aid, rowCountFor t aid i ≤ p.2) := by
  haveI htot : IsTotal (String × Nat) (fun a b => b.2 ≤ a.2) :=
    ⟨fun a b => Nat.le_total b.2 a.2⟩
  haveI htrans : IsTrans (String × Nat) (fun a b => b.2 ≤ a.2) :=
    ⟨fun a b c hab hbc => Nat.le_trans hbc hab⟩
  have hsorted := List.sorted_insertionSort (fun a b : String × Nat => b.2 ≤ a.2)
    (aid_item_counts t aid)
  have hperm := List.perm_insertionSort (fun a b : String × Nat => b.2 ≤ a.2)
    (aid_item_counts t aid)
  have htop : temp_top_5_products t aid =
      (List.insertionSort (fun a b : String × Nat => b.2 ≤ a.2)
        (aid_item_counts t aid)).take 5 := rfl
  refine ⟨?_, ?_, ?_, ?_⟩
  · rw [htop, List.length_take]
    exact min_le_left _ _
  · rw [htop]
    exact List.Pairwise.sublist (List.take_sublist _ _) hsorted
  · intro p hp
    rw [htop] at hp
    exact aid_item_counts_spec t aid p
      (hperm.mem_iff.mp ((List.take_sublist _ _).subset hp))
  · intro i hex hnot p hp
    have hig := aid_item_counts_complete t aid i hex
    have his : (i, rowCountFor t aid i) ∈
        List.insertionSort (fun a b : String × Nat => b.2 ≤ a.2) (aid_item_counts t aid) :=
      hperm.mem_iff.mpr hig
    have hnot5 : (i, rowCountFor t aid i) ∉ temp_top_5_products t aid := by
      intro hmem
      exact hnot (List.mem_map.mpr ⟨_, hmem, rfl⟩)
    have hsplitmem : (i, rowCountFor t aid i) ∈
        (List.insertionSort (fun a b : String × Nat => b.2 ≤ a.2)
            (aid_item_counts t aid)).take 5 ++
          (List.insertionSort (fun a b : String × Nat => b.2 ≤ a.2)
            (aid_item_counts t aid)).drop 5 := by
      rw [List.take_append_drop]
      exact his
    have hdrop : (i, rowCountFor t aid i) ∈
        (List.insertionSort (fun a b : String × Nat => b.2 ≤ a.2)
          (aid_item_counts t aid)).drop 5 := by
      rcases List.mem_append.mp hsplitmem with h | h
      · exact absurd (htop ▸ h) hnot5
      · exact h
    have hsplitsorted : List.Sorted (fun a b : String × Nat => b.2 ≤ a.2)
        ((List.insertionSort (fun a b : String × Nat => b.2 ≤ a.2)
            (aid_item_counts t aid)).take 5 ++
          (List.insertionSort (fun a b : String × Nat => b.2 ≤ a.2)
            (aid_item_counts t aid)).drop 5) := by
      rw [List.take_append_drop]
      exact hsorted
    have hpairs := (List.pairwise_append.mp hsplitsorted).2.2
    exact hpairs p (htop ▸ hp) _ hdrop

/-- C1 (code bug): on the table ex1 the top-ten selection leaves out item A
and the grouped bar chart carries no A rows, even though A has the strictly
largest total line-item volume of all eleven items (its per-year rows do
appear in the full per (item, year) frame).  The selection of lines 257..265
ranks by the Volume of the per (item, year) merge joined on item alone, that
is by the largest single-year volume, not by the total over the table. -/
theorem top_10_products_not_total_volume :
    "A" ∉ top_10_products ex1 ∧
    (∀ r ∈ df_product_sales_volume_top_10 ex1, r.itemDescription ≠ "A") ∧
    (∃ r ∈ df_product_sales_volume ex1, r.itemDescription = "A") ∧
    (∀ k ∈ itemYearKeys ex1, k.1 ≠ "A" →
      total_volume ex1 k.1 < total_volume ex1 "A") := by
  exact ⟨by decide, by decide, by decide, by decide⟩

/-- C3 (code bug): on the table ex3 the selected product X has data for the
numeric months 1 (Jan) and 2 (Feb) of the selected year 2022, yet the
year-comparison chart emits the x-axis points as Feb then Jan: the groupby
of lines 473..478 orders the already-labelled Month strings by code point,
so the calendar order the numeric key carried at lines 408..413 is lost. -/
theorem year_chart_months_lexical :
    (ex3.map fun r => (sdMonth r).2) = [1, 2] ∧
    monthLabel 1 = "Jan" ∧ monthLabel 2 = "Feb" ∧
    year_series_x ex3 "X" "2022" = ["Feb", "Jan"] := by
  exact ⟨by decide, rfl, rfl, by decide⟩

end KRMC
